import Mathlib

/-!
Shallow embedding of the authorization / identity core of the
`cse341-project-2` fitness-tracker REST backend, together with proofs
settling the spec claims against the route handlers.

The embedding follows the Express route handlers in
`routes/users.js` (users CRUD, login, role patch, profile),
`routes/workouts.js` (workouts CRUD, listing), the GitHub OAuth verify
callback, and the validators in `validators/userValidator.js` and
`validators/workoutValidator.js`.

Collaborators that are explicitly out of scope of the spec (bcrypt,
JWT signing, `Date` parsing, the current clock) are injected through an
`Env` record of pure functions; everything else is translated directly
from the JavaScript source.
-/

set_option maxRecDepth 4000

namespace Fitness

/-! ## Mongo ObjectId model

Route handlers receive ids as raw strings.  `new ObjectId(s)` throws on a
malformed hex string (modelled as `Option`), and a parsed id compares and
prints case-insensitively (modelled by lowercasing the 24 hex digits). -/

def isHexDigit (c : Char) : Bool :=
  c.isDigit || ('a' ≤ c && c ≤ 'f') || ('A' ≤ c && c ≤ 'F')

/-! JS string primitives, implemented over character lists
(kernel-computable equivalents of `toLowerCase`, `toUpperCase`, `trim`,
`split`, `includes`, `startsWith`, `endsWith`). -/

def isJsWs (c : Char) : Bool :=
  c.toNat == 0x20 || (9 ≤ c.toNat && c.toNat ≤ 13)

def jsToLower (s : String) : String := ⟨s.data.map Char.toLower⟩

def jsToUpper (s : String) : String := ⟨s.data.map Char.toUpper⟩

def jsTrim (s : String) : String :=
  ⟨((s.data.dropWhile isJsWs).reverse.dropWhile isJsWs).reverse⟩

def splitOnCharAux (sep : Char) : List Char → List Char → List (List Char)
  | [], acc => [acc.reverse]
  | c :: rest, acc =>
    if c == sep then acc.reverse :: splitOnCharAux sep rest []
    else splitOnCharAux sep rest (c :: acc)

/-- `s.split(sep)` for a one-character separator. -/
def splitOnChar (sep : Char) (s : String) : List String :=
  (splitOnCharAux sep s.data []).map String.mk

def leadMatch : List Char → List Char → Bool
  | [], _ => true
  | _ :: _, [] => false
  | a :: as, b :: bs => a == b && leadMatch as bs

def subMatch (needle : List Char) : List Char → Bool
  | [] => needle.isEmpty
  | c :: rest => leadMatch needle (c :: rest) || subMatch needle rest

/-- `hay.includes(needle)`. -/
def strIncludes (hay needle : String) : Bool := subMatch needle.data hay.data

def jsStartsWith (s pre : String) : Bool := leadMatch pre.data s.data

def jsEndsWith (s suf : String) : Bool := leadMatch suf.data.reverse s.data.reverse

def ObjectId.isValid (s : String) : Bool :=
  s.length == 24 && s.toList.all isHexDigit

/-- `new ObjectId(s)`: throws (`none`) on an invalid string, otherwise the
id, normalized to its lowercase hex form (ObjectId equality and
`toString` are byte-based, hence case-insensitive on the hex input). -/
def parseObjectId (s : String) : Option String :=
  if ObjectId.isValid s then some (jsToLower s) else none

/-! ## Documents and request data -/

/-- A document of the `users` collection.  `Option` fields are fields a
document may lack (`password` is absent on OAuth-created accounts,
`githubId`/`githubUsername` absent on password-created ones). -/
structure UserDoc where
  _id : String
  firstName : String
  lastName : String
  email : String
  password : Option String
  githubId : Option String
  githubUsername : Option String
  dateOfBirth : Int
  gender : String
  height : Option Int
  weight : Option Int
  role : Option String
  emailVerified : Bool
  isActive : Bool
  isTestUser : Bool
  createdAt : Int
  updatedAt : Option Int
deriving Repr, DecidableEq

/-- A document of the `workouts` collection.  `userId` is the owning
account's id stored as its (lowercase) string form. -/
structure WorkoutDoc where
  _id : String
  userId : String
  workoutName : String
  date : Int
  duration : Int
  caloriesBurned : Int
  exerciseType : String
  notes : String
  createdAt : Int
  createdBy : Option String
  updatedAt : Option Int
deriving Repr, DecidableEq

/-- JWT claims attached to the request by `authenticateToken`
(`req.user`). -/
structure Claims where
  userId : String
  email : String
  role : String
deriving Repr, DecidableEq

/-- A JS `Date` value as far as the validators consume it: its epoch
milliseconds and its `getFullYear()`. -/
structure JSDate where
  ms : Int
  year : Int
deriving Repr, DecidableEq

/-- Injected collaborators: clock, `Date` parsing, bcrypt, JWT secret.
The spec treats these as external to the core. -/
structure Env where
  now : JSDate
  /-- `new Date(today.getFullYear() - 1, month, date)` of the workout
  date validator, precomputed by the Date collaborator. -/
  oneYearAgo : Int
  /-- `new Date(today.getFullYear() + 1, month, date)` likewise. -/
  oneYearFromNow : Int
  parseDate : String → Option JSDate
  bcryptHash : String → String
  bcryptCompare : String → String → Bool
  jwtSecret : Option String

/-- Uniform HTTP response: a status code and the `error` message of the
JSON body when the response is an error. -/
structure HResp where
  status : Nat
  error : Option String := none
deriving Repr, DecidableEq

end Fitness

namespace Fitness

/-! ## DELETE /users/:id  (routes/users.js)

Permission is checked before the existence lookup; both ids are parsed
with `new ObjectId` inside the `try`, so a malformed id surfaces as the
catch-all 500. -/

def deleteUserHandler (claims : Claims) (paramId : String)
    (users : List UserDoc) : HResp :=
  match parseObjectId paramId with
  | none => ⟨500, some "Failed to delete user"⟩
  | some userId =>
    match parseObjectId claims.userId with
    | none => ⟨500, some "Failed to delete user"⟩
    | some requestingUserId =>
      let isOwner := userId == requestingUserId
      let isAdmin := claims.role == "admin"
      if !isOwner && !isAdmin then
        ⟨403, some "Access denied. You can only delete your own account."⟩
      else
        match users.find? (fun u => u._id == userId) with
        | none => ⟨404, some "User not found"⟩
        | some _ => ⟨200, none⟩

/-! ## DELETE /workouts/:id  (routes/workouts.js)

An explicit `ObjectId.isValid` guard rejects malformed ids with a 400;
the workout is then loaded *before* the ownership check. -/

def deleteWorkoutHandler (claims : Claims) (paramId : String)
    (workouts : List WorkoutDoc) : HResp :=
  if !ObjectId.isValid paramId then
    ⟨400, some "Invalid workout ID format"⟩
  else
    match parseObjectId paramId with
    | none => ⟨500, some "Failed to delete workout"⟩
    | some workoutId =>
      match parseObjectId claims.userId with
      | none => ⟨500, some "Failed to delete workout"⟩
      | some requestingUserId =>
        match workouts.find? (fun w => w._id == workoutId) with
        | none => ⟨404, some "Workout not found"⟩
        | some existingWorkout =>
          match parseObjectId existingWorkout.userId with
          | none => ⟨500, some "Failed to delete workout"⟩
          | some workoutUserId =>
            let isOwner := workoutUserId == requestingUserId
            let isAdmin := claims.role == "admin"
            if !isOwner && !isAdmin then
              ⟨403, some "Access denied. You can only delete your own workouts."⟩
            else
              ⟨200, none⟩

/-! ## validators/userValidator.js -/

def isAsciiAlnum (c : Char) : Bool := c.isAlpha || c.isDigit

/-- Character class of the name regex used by the user validator:
ASCII letters, the Latin-1 range `À-ÿ`, whitespace, hyphen, apostrophe,
dot. -/
def isNameChar (c : Char) : Bool :=
  c.isAlpha || (0xC0 ≤ c.toNat && c.toNat ≤ 0xFF) ||
    c.toNat == 0x20 || (9 ≤ c.toNat && c.toNat ≤ 13) ||
    c == '-' || c == '\'' || c == '.'

def validateName (name : Option String) (fieldName : String) : Option String :=
  match name with
  | none => some (fieldName ++ " is required")
  | some n =>
    if n == "" then some (fieldName ++ " is required")
    else if !(n.toList.all isNameChar) then
      some (fieldName ++ " contains invalid characters")
    else if n.length > 50 then
      some (fieldName ++ " must be 50 characters or less")
    else none

/-- `[a-zA-Z0-9]([mid]*[a-zA-Z0-9])?`: nonempty, alphanumeric at both
ends, `mid` characters in between. -/
def matchesSeg (s : List Char) (mid : Char → Bool) : Bool :=
  match s with
  | [] => false
  | c :: rest =>
    isAsciiAlnum c &&
      (match rest.reverse with
       | [] => true
       | d :: revMid => isAsciiAlnum d && revMid.all mid)

def isLocalMid (c : Char) : Bool :=
  isAsciiAlnum c || c == '.' || c == '_' || c == '-'

def isDomainMid (c : Char) : Bool :=
  isAsciiAlnum c || c == '.' || c == '-'

/-- Domain side of the email regex:
`[a-zA-Z0-9]([a-zA-Z0-9.-]*[a-zA-Z0-9])?\.([a-zA-Z]{2,})`.  The TLD is
alphabetic so the separating dot is the last dot of the string. -/
def matchesDomain (d : String) : Bool :=
  let parts := splitOnChar '.' d
  match parts.reverse with
  | [] => false
  | [_] => false
  | tld :: revRest =>
    tld.length ≥ 2 && tld.toList.all Char.isAlpha &&
      matchesSeg (String.intercalate "." revRest.reverse).toList isDomainMid

def matchesEmailRegex (e : String) : Bool :=
  match splitOnChar '@' e with
  | [l, d] => matchesSeg l.toList isLocalMid && matchesDomain d
  | _ => false

def validateEmail (email : Option String) : Option String :=
  match email with
  | none => some "Email is required"
  | some e =>
    if e == "" then some "Email is required"
    else if e.length > 254 then some "Email is too long (max 254 characters)"
    else if !matchesEmailRegex e then some "Invalid email format"
    else if strIncludes e ".." || strIncludes e ".-" || strIncludes e "-." then
      some "Email contains invalid consecutive special characters"
    else if jsStartsWith e "." || jsStartsWith e "-" || jsEndsWith e "." || jsEndsWith e "-" then
      some "Email cannot start or end with dots or hyphens"
    else none

def validateDateOfBirth (env : Env) (dateOfBirth : Option String) : Option String :=
  match dateOfBirth with
  | none => some "Date of birth is required"
  | some s =>
    if s == "" then some "Date of birth is required"
    else
      match env.parseDate s with
      | none => some "Invalid date of birth format"
      | some dob =>
        let age := env.now.year - dob.year
        if dob.ms > env.now.ms || age > 120 || age < 13 then
          some "Date of birth must be between 13 and 120 years ago"
        else none

def validateGender (gender : Option String) : Option String :=
  match gender with
  | none => some "Gender is required"
  | some g =>
    if g == "" then some "Gender is required"
    else if jsToUpper g == "M" || jsToUpper g == "F" then none
    else some "Gender must be M or F"

def validateHeight (height : Option Int) : Option String :=
  match height with
  | none => none
  | some h =>
    if h < 50 || h > 300 then some "Height must be between 50 and 300 cm"
    else none

def validateWeight (weight : Option Int) : Option String :=
  match weight with
  | none => none
  | some w =>
    if w < 20 || w > 500 then some "Weight must be between 20 and 500 kg"
    else none

def validatePassword (password passwordConfirm : Option String) : Option String :=
  match password with
  | none => some "Password is required"
  | some p =>
    if p == "" then some "Password is required"
    else
      match passwordConfirm with
      | none => some "Password confirmation is required"
      | some pc =>
        if pc == "" then some "Password confirmation is required"
        else if p != pc then some "Passwords do not match"
        else none

/-- Body of `POST /users`.  The handler deliberately never destructures
`role`; it is carried here to state what happens when a client supplies
one. -/
structure CreateUserBody where
  firstName : Option String
  lastName : Option String
  email : Option String
  password : Option String
  passwordConfirm : Option String
  dateOfBirth : Option String
  gender : Option String
  height : Option Int
  weight : Option Int
  isTestUser : Option Bool
  role : Option String
deriving Repr, DecidableEq

def pushErr (errors : List String) : Option String → List String
  | none => errors
  | some e => errors ++ [e]

def validateUserForCreation (env : Env) (b : CreateUserBody) : List String :=
  let errors : List String := []
  let errors := pushErr errors (validateName b.firstName "First name")
  let errors := pushErr errors (validateName b.lastName "Last name")
  let errors := pushErr errors (validateEmail b.email)
  let errors := pushErr errors (validatePassword b.password b.passwordConfirm)
  let errors := pushErr errors (validateDateOfBirth env b.dateOfBirth)
  let errors := pushErr errors (validateGender b.gender)
  let errors := pushErr errors (validateHeight b.height)
  let errors := pushErr errors (validateWeight b.weight)
  errors

structure UpdateUserBody where
  firstName : Option String
  lastName : Option String
  email : Option String
  dateOfBirth : Option String
  gender : Option String
  height : Option Int
  weight : Option Int
deriving Repr, DecidableEq

def optValidate (field : Option α) (v : Option α → Option String) : Option String :=
  match field with
  | none => none
  | some x => v (some x)

def validateUserForUpdate (env : Env) (b : UpdateUserBody) : List String :=
  let errors : List String := []
  let errors := pushErr errors (optValidate b.firstName (validateName · "First name"))
  let errors := pushErr errors (optValidate b.lastName (validateName · "Last name"))
  let errors := pushErr errors (optValidate b.email validateEmail)
  let errors := pushErr errors (optValidate b.dateOfBirth (validateDateOfBirth env))
  let errors := pushErr errors (optValidate b.gender validateGender)
  let errors := pushErr errors (optValidate b.height validateHeight)
  let errors := pushErr errors (optValidate b.weight validateWeight)
  errors

def normalizeEmail (email : Option String) : String :=
  match email with
  | none => ""
  | some e => if e == "" then "" else jsTrim (jsToLower e)

structure LoginBody where
  email : Option String
  password : Option String
deriving Repr, DecidableEq

def validateUserForLogin (b : LoginBody) : List String :=
  let errors : List String := []
  let errors :=
    match b.email with
    | none => errors ++ ["Email is required"]
    | some e =>
      if e == "" then errors ++ ["Email is required"]
      else pushErr errors (validateEmail b.email)
  let errors :=
    match b.password with
    | none => errors ++ ["Password is required"]
    | some p => if p == "" then errors ++ ["Password is required"] else errors
  errors

/-! ## POST /users  (registration) -/

/-- The mongo document built by the registration handler.  `role`,
`emailVerified` and `isActive` are hardcoded; the body's `role` is never
read. -/
def buildNewUser (env : Env) (insertedId : String) (b : CreateUserBody) : UserDoc :=
  { _id := insertedId
    firstName := b.firstName.getD ""
    lastName := b.lastName.getD ""
    email := normalizeEmail b.email
    password := some (env.bcryptHash (b.password.getD ""))
    githubId := none
    githubUsername := none
    dateOfBirth := ((env.parseDate (b.dateOfBirth.getD "")).map JSDate.ms).getD 0
    gender := jsToUpper (b.gender.getD "")
    height := b.height.bind (fun h => if h == 0 then none else some h)
    weight := b.weight.bind (fun w => if w == 0 then none else some w)
    role := some "user"
    emailVerified := false
    isActive := true
    isTestUser := b.isTestUser.getD false
    createdAt := env.now.ms
    updatedAt := none }

def createUserHandler (env : Env) (insertedId : String) (b : CreateUserBody)
    (users : List UserDoc) : HResp × List UserDoc :=
  let validationErrors := validateUserForCreation env b
  if validationErrors.length > 0 then
    (⟨400, some "Validation failed"⟩, users)
  else
    let normalizedEmail := normalizeEmail b.email
    match users.find? (fun u => u.email == normalizedEmail) with
    | some _ => (⟨409, some "Email already exists"⟩, users)
    | none =>
      let user := buildNewUser env insertedId b
      (⟨201, none⟩, users ++ [user])

/-! ## POST /users/login -/

/-- Claims of the token minted on a successful login. -/
structure TokenPayload where
  userId : String
  email : String
  role : String
deriving Repr, DecidableEq

structure LoginRes where
  status : Nat
  error : Option String := none
  token : Option TokenPayload := none
deriving Repr, DecidableEq

def loginHandler (env : Env) (b : LoginBody) (users : List UserDoc) : LoginRes :=
  let validationErrors := validateUserForLogin b
  if validationErrors.length > 0 then
    ⟨400, some "Validation failed", none⟩
  else
    let normalizedEmail := normalizeEmail b.email
    match users.find? (fun u => u.email == normalizedEmail) with
    | none => ⟨401, some "Invalid email or password", none⟩
    | some user =>
      if !user.isActive then
        ⟨401, some "Account is deactivated", none⟩
      else
        match user.password with
        | none =>
          -- bcrypt.compare rejects on a missing hash; the catch block
          -- turns that into the generic 500
          ⟨500, some "Failed to login", none⟩
        | some hash =>
          if !env.bcryptCompare (b.password.getD "") hash then
            ⟨401, some "Invalid email or password", none⟩
          else
            match env.jwtSecret with
            | none => ⟨500, some "Server configuration error", none⟩
            | some _ =>
              ⟨200, none, some ⟨user._id, user.email, user.role.getD "user"⟩⟩

/-! ## GET /users/:id and GET /users/profile/me

The response body is modelled as the list of (key, printed value) pairs
of the mongo document, in document order, with absent optional fields
omitted — the shape a mongo projection operates on. -/

def optField (key : String) : Option String → List (String × String)
  | none => []
  | some v => [(key, v)]

def optIntField (key : String) : Option Int → List (String × String)
  | none => []
  | some v => [(key, toString v)]

def UserDoc.toFields (u : UserDoc) : List (String × String) :=
  [("_id", u._id), ("firstName", u.firstName), ("lastName", u.lastName),
   ("email", u.email)]
  ++ optField "password" u.password
  ++ optField "githubId" u.githubId
  ++ optField "githubUsername" u.githubUsername
  ++ [("dateOfBirth", toString u.dateOfBirth), ("gender", u.gender)]
  ++ optIntField "height" u.height
  ++ optIntField "weight" u.weight
  ++ optField "role" u.role
  ++ [("emailVerified", toString u.emailVerified),
      ("isActive", toString u.isActive),
      ("isTestUser", toString u.isTestUser),
      ("createdAt", toString u.createdAt)]
  ++ optIntField "updatedAt" u.updatedAt

/-- A mongo exclusion projection: drop the listed keys. -/
def applyProjection (excluded : List String) (fields : List (String × String)) :
    List (String × String) :=
  fields.filter (fun kv => !excluded.contains kv.1)

structure UserReadRes where
  status : Nat
  error : Option String := none
  body : Option (List (String × String)) := none
deriving Repr, DecidableEq

def getUserHandler (claims : Claims) (paramId : String)
    (users : List UserDoc) : UserReadRes :=
  match parseObjectId paramId with
  | none => ⟨500, some "Failed to fetch user", none⟩
  | some userId =>
    match parseObjectId claims.userId with
    | none => ⟨500, some "Failed to fetch user", none⟩
    | some requestingUserId =>
      match users.find? (fun u => u._id == userId) with
      | none => ⟨404, some "User not found", none⟩
      | some _ =>
        let isOwner := userId == requestingUserId
        let isAdmin := claims.role == "admin"
        if !isOwner && !isAdmin then
          ⟨403, some "Access denied. You can only view your own profile.", none⟩
        else
          -- both branches of the source exclude exactly `password`
          let projection := if !isOwner && isAdmin then ["password"] else ["password"]
          match users.find? (fun u => u._id == userId) with
          | none => ⟨200, none, none⟩
          | some user => ⟨200, none, some (applyProjection projection user.toFields)⟩

def profileMeHandler (claims : Claims) (users : List UserDoc) : UserReadRes :=
  match parseObjectId claims.userId with
  | none => ⟨500, some "Failed to fetch user profile", none⟩
  | some userId =>
    match users.find? (fun u => u._id == userId) with
    | none => ⟨404, some "User not found", none⟩
    | some user => ⟨200, none, some (applyProjection ["password"] user.toFields)⟩

/-! ## PUT /users/:id -/

/-- `updateOne({_id}, {$set: f})` touches the first matching document. -/
def updateFirstUserById (users : List UserDoc) (uid : String)
    (f : UserDoc → UserDoc) : List UserDoc :=
  match users with
  | [] => []
  | u :: rest =>
    if u._id == uid then f u :: rest else u :: updateFirstUserById rest uid f

def applyUserUpdate (env : Env) (b : UpdateUserBody) (u : UserDoc) : UserDoc :=
  let u := { u with updatedAt := some env.now.ms }
  let u := match b.firstName with | none => u | some v => { u with firstName := v }
  let u := match b.lastName with | none => u | some v => { u with lastName := v }
  let u := match b.dateOfBirth with
           | none => u
           | some v => { u with dateOfBirth := ((env.parseDate v).map JSDate.ms).getD 0 }
  let u := match b.gender with | none => u | some v => { u with gender := jsToUpper v }
  let u := match b.height with
           | none => u
           | some v => { u with height := if v == 0 then none else some v }
  let u := match b.weight with
           | none => u
           | some v => { u with weight := if v == 0 then none else some v }
  let u := match b.email with | none => u | some v => { u with email := normalizeEmail (some v) }
  u

def updateUserHandler (env : Env) (claims : Claims) (paramId : String)
    (b : UpdateUserBody) (users : List UserDoc) : HResp × List UserDoc :=
  match parseObjectId paramId with
  | none => (⟨500, some "Failed to update user"⟩, users)
  | some userId =>
    match parseObjectId claims.userId with
    | none => (⟨500, some "Failed to update user"⟩, users)
    | some requestingUserId =>
      match users.find? (fun u => u._id == userId) with
      | none => (⟨404, some "User not found"⟩, users)
      | some _ =>
        let isOwner := userId == requestingUserId
        let isAdmin := claims.role == "admin"
        if !isOwner && !isAdmin then
          (⟨403, some "Access denied. You can only update your own profile."⟩, users)
        else
          let validationErrors := validateUserForUpdate env b
          if validationErrors.length > 0 then
            (⟨400, some "Validation failed"⟩, users)
          else
            let emailConflict : Bool :=
              match b.email with
              | none => false
              | some e =>
                (users.find? (fun u =>
                  u.email == normalizeEmail (some e) && u._id != userId)).isSome
            if emailConflict then
              (⟨409, some "Email already exists"⟩, users)
            else
              (⟨200, none⟩, updateFirstUserById users userId (applyUserUpdate env b))

/-! ## PATCH /users/:id/role -/

def roleUpdateHandler (env : Env) (claims : Claims) (paramId : String)
    (role : Option String) (users : List UserDoc) : HResp × List UserDoc :=
  if claims.role != "admin" then
    (⟨403, some "Access denied. Admin privileges required."⟩, users)
  else
    match parseObjectId paramId with
    | none => (⟨500, some "Failed to update user role"⟩, users)
    | some userId =>
      let validRoles := ["user", "admin"]
      match role with
      | none => (⟨400, some "Invalid role"⟩, users)
      | some r =>
        if r == "" || !validRoles.contains r then
          (⟨400, some "Invalid role"⟩, users)
        else
          match users.find? (fun u => u._id == userId) with
          | none => (⟨404, some "User not found"⟩, users)
          | some _ =>
            match parseObjectId claims.userId with
            | none => (⟨500, some "Failed to update user role"⟩, users)
            | some requestingUserId =>
              if userId == requestingUserId && r != "admin" then
                (⟨400, some "Cannot change your own admin role"⟩, users)
              else
                (⟨200, none⟩,
                 updateFirstUserById users userId
                   (fun u => { u with role := some r, updatedAt := some env.now.ms }))

/-! ## validators/workoutValidator.js -/

def validateUserId (userId : Option String) : Option String :=
  match userId with
  | none => some "User ID is required"
  | some s =>
    if s == "" then some "User ID is required"
    else if !ObjectId.isValid s then some "Invalid user ID format"
    else none

def isWorkoutNameChar (c : Char) : Bool :=
  isAsciiAlnum c || c.toNat == 0x20 || (9 ≤ c.toNat && c.toNat ≤ 13) ||
    c == '-' || c == '_' || c == '.' || c == '(' || c == ')' ||
    c == ',' || c == '!' || c == '&'

def validateWorkoutName (workoutName : Option String) : Option String :=
  match workoutName with
  | none => some "Workout name is required"
  | some s =>
    if s == "" then some "Workout name is required"
    else
      let trimmedName := jsTrim s
      if trimmedName.length == 0 then some "Workout name cannot be empty"
      else if trimmedName.length > 100 then
        some "Workout name must be 100 characters or less"
      else if !(trimmedName.toList.all isWorkoutNameChar) then
        some "Workout name contains invalid characters"
      else none

def validateDate (env : Env) (date : Option String) : Option String :=
  match date with
  | none => some "Date is required"
  | some s =>
    if s == "" then some "Date is required"
    else
      match env.parseDate s with
      | none => some "Invalid date format"
      | some workoutDate =>
        if workoutDate.ms < env.oneYearAgo || workoutDate.ms > env.oneYearFromNow then
          some "Date must be within one year of today"
        else none

def validateDuration (duration : Option Int) : Option String :=
  match duration with
  | none => some "Duration is required"
  | some d =>
    if d ≤ 0 then some "Duration must be greater than 0"
    else if d > 1440 then some "Duration cannot exceed 24 hours (1440 minutes)"
    else none

def validateCaloriesBurned (calories : Option Int) : Option String :=
  match calories with
  | none => some "Calories burned is required"
  | some c =>
    if c < 0 then some "Calories burned cannot be negative"
    else if c > 10000 then some "Calories burned cannot exceed 10,000"
    else none

def validExerciseTypes : List String :=
  ["CARDIO", "STRENGTH", "FLEXIBILITY", "BALANCE", "SPORTS",
   "RUNNING", "CYCLING", "SWIMMING", "WALKING", "WEIGHTLIFTING",
   "YOGA", "PILATES", "CROSSFIT", "BASKETBALL", "FOOTBALL",
   "TENNIS", "BOXING", "MARTIAL_ARTS", "DANCING", "HIKING",
   "CLIMBING", "ROWING", "OTHER"]

/-- `replace(/\s+/g, '_')`: every maximal whitespace run becomes one
underscore. -/
def replaceWsRunsAux : List Char → Bool → List Char
  | [], _ => []
  | c :: rest, prevWs =>
    if isJsWs c then
      if prevWs then replaceWsRunsAux rest true
      else '_' :: replaceWsRunsAux rest true
    else c :: replaceWsRunsAux rest false

def replaceWsRuns (s : String) : String :=
  String.mk (replaceWsRunsAux s.toList false)

def normalizeExerciseType (s : String) : String :=
  replaceWsRuns (jsToUpper (jsTrim s))

def validateExerciseType (exerciseType : Option String) : Option String :=
  match exerciseType with
  | none => some "Exercise type is required"
  | some s =>
    if s == "" then some "Exercise type is required"
    else
      let trimmedType := jsTrim s
      if trimmedType.length == 0 then some "Exercise type cannot be empty"
      else if trimmedType.length > 50 then
        some "Exercise type must be 50 characters or less"
      else if !validExerciseTypes.contains (normalizeExerciseType s) then
        some "Exercise type must be one of the valid types"
      else none

def validateNotes (notes : Option String) : Option String :=
  match notes with
  | none => none
  | some s =>
    if s.length > 1000 then some "Notes must be 1000 characters or less"
    else none

def validatePaginationParams (page limit : Int) : List String :=
  let errors : List String := []
  let errors := if page < 1 then errors ++ ["Page must be 1 or greater"] else errors
  let errors := if limit < 1 then errors ++ ["Limit must be 1 or greater"] else errors
  let errors := if limit > 100 then errors ++ ["Limit cannot exceed 100"] else errors
  errors

def truthy : Option String → Bool
  | none => false
  | some s => s != ""

def validateDateRange (env : Env) (startDate endDate : Option String) : List String :=
  let errors : List String := []
  let errors :=
    if truthy startDate && (env.parseDate (startDate.getD "")).isNone then
      errors ++ ["Invalid start date format"]
    else errors
  let errors :=
    if truthy endDate && (env.parseDate (endDate.getD "")).isNone then
      errors ++ ["Invalid end date format"]
    else errors
  let errors :=
    if truthy startDate && truthy endDate then
      match env.parseDate (startDate.getD ""), env.parseDate (endDate.getD "") with
      | some s, some e =>
        if s.ms > e.ms then errors ++ ["Start date cannot be after end date"] else errors
      | _, _ => errors
    else errors
  errors

/-- Body of workout create/update requests as the validators destructure
it. -/
structure WorkoutBody where
  userId : Option String
  workoutName : Option String
  date : Option String
  duration : Option Int
  caloriesBurned : Option Int
  exerciseType : Option String
  notes : Option String
deriving Repr, DecidableEq

def validateWorkoutForUpdate (env : Env) (b : WorkoutBody) : List String :=
  let errors : List String := []
  let errors := pushErr errors (optValidate b.userId validateUserId)
  let errors := pushErr errors (optValidate b.workoutName validateWorkoutName)
  let errors := pushErr errors (optValidate b.date (validateDate env))
  let errors := pushErr errors (optValidate b.duration validateDuration)
  let errors := pushErr errors (optValidate b.caloriesBurned validateCaloriesBurned)
  let errors := pushErr errors (optValidate b.exerciseType validateExerciseType)
  let errors := pushErr errors (optValidate b.notes validateNotes)
  errors

/-- Normalized update payload (`normalizeWorkoutData`): present fields
only, trimmed / parsed / uppercased as in the source. -/
structure NormalizedWorkout where
  userId : Option String
  workoutName : Option String
  date : Option Int
  duration : Option Int
  caloriesBurned : Option Int
  exerciseType : Option String
  notes : Option String
deriving Repr, DecidableEq

def normalizeWorkoutData (env : Env) (b : WorkoutBody) : NormalizedWorkout :=
  { userId := b.userId
    workoutName := b.workoutName.map jsTrim
    date := b.date.map (fun s => ((env.parseDate s).map JSDate.ms).getD 0)
    duration := b.duration
    caloriesBurned := b.caloriesBurned
    exerciseType := b.exerciseType.map normalizeExerciseType
    notes := b.notes.map (fun s => if s == "" then "" else jsTrim s) }

/-! ## GET /workouts  (listing) -/

/-- The mongo query object the listing handler assembles before calling
`find`. -/
structure WQuery where
  userId : Option String := none
  dateGte : Option Int := none
  dateLte : Option Int := none
  exerciseType : Option String := none
deriving Repr, DecidableEq

/-- `$regex: pat, $options: 'i'`: case-insensitive substring match. -/
def strContainsCI (hay needle : String) : Bool :=
  subMatch (jsToLower needle).data (jsToLower hay).data

def WorkoutDoc.matchesQuery (q : WQuery) (w : WorkoutDoc) : Bool :=
  (match q.userId with | none => true | some s => w.userId == s) &&
  (match q.dateGte with | none => true | some t => t ≤ w.date) &&
  (match q.dateLte with | none => true | some t => w.date ≤ t) &&
  (match q.exerciseType with
   | none => true
   | some pat => strContainsCI w.exerciseType pat)

/-- Query-string parameters of the listing route.  `page`/`limit` hold
the `parseInt` result (`none` for absent or NaN input). -/
structure ListParams where
  page : Option Int := none
  limit : Option Int := none
  userId : Option String := none
  startDate : Option String := none
  endDate : Option String := none
  exerciseType : Option String := none
deriving Repr, DecidableEq

/-- Date-range and exercise-type filter section of the `GET /workouts`
query construction. -/
def listWorkoutsDates (env : Env) (params : ListParams) (query : WQuery)
    (page limit : Int) : Except HResp (Int × Int × WQuery) :=
  if truthy params.startDate || truthy params.endDate then
    if (validateDateRange env params.startDate params.endDate).length > 0 then
      .error ⟨400, some "Date validation failed"⟩
    else
      let gte := some (((env.parseDate (params.startDate.getD "")).map JSDate.ms).getD 0)
      let lte := some (((env.parseDate (params.endDate.getD "")).map JSDate.ms).getD 0)
      let query :=
        if truthy params.startDate then { query with dateGte := gte } else query
      let query :=
        if truthy params.endDate then { query with dateLte := lte } else query
      let query :=
        if truthy params.exerciseType then
          { query with exerciseType := params.exerciseType }
        else query
      .ok (page, limit, query)
  else
    let query :=
      if truthy params.exerciseType then
        { query with exerciseType := params.exerciseType }
      else query
    .ok (page, limit, query)

/-- Validation and query construction of `GET /workouts`, up to the
`find` call: either an early error response or
`(page, limit, query)`. -/
def listWorkoutsCore (env : Env) (claims : Claims) (requestingUserId : String)
    (params : ListParams) : Except HResp (Int × Int × WQuery) :=
  let page : Int := match params.page with | none => 1 | some n => if n == 0 then 1 else n
  let limit : Int := match params.limit with | none => 10 | some n => if n == 0 then 10 else n
  let isAdmin := claims.role == "admin"
  if (validatePaginationParams page limit).length > 0 then
    .error ⟨400, some "Validation failed"⟩
  else
    let query : WQuery := {}
    let query := if !isAdmin then { query with userId := some requestingUserId } else query
    if isAdmin && truthy params.userId then
      if !ObjectId.isValid (params.userId.getD "") then
        .error ⟨400, some "Invalid userId format"⟩
      else
        listWorkoutsDates env params { query with userId := params.userId } page limit
    else
      listWorkoutsDates env params query page limit

/-- Stable insertion for the `sort({date: -1})` stage (most recent
first). -/
def insertByDateDesc (w : WorkoutDoc) : List WorkoutDoc → List WorkoutDoc
  | [] => [w]
  | x :: xs => if w.date > x.date then w :: x :: xs else x :: insertByDateDesc w xs

def sortByDateDesc : List WorkoutDoc → List WorkoutDoc
  | [] => []
  | w :: ws => insertByDateDesc w (sortByDateDesc ws)

structure WorkoutListRes where
  status : Nat
  error : Option String := none
  workouts : List WorkoutDoc := []
deriving Repr, DecidableEq

def listWorkoutsHandler (env : Env) (claims : Claims) (params : ListParams)
    (workouts : List WorkoutDoc) : WorkoutListRes :=
  match parseObjectId claims.userId with
  | none => ⟨500, some "Failed to fetch workouts", []⟩
  | some requestingUserId =>
    match listWorkoutsCore env claims requestingUserId params with
    | .error e => ⟨e.status, e.error, []⟩
    | .ok (page, limit, query) =>
      let matching := workouts.filter (WorkoutDoc.matchesQuery query)
      let sorted := sortByDateDesc matching
      let skip := ((page - 1) * limit).toNat
      ⟨200, none, (sorted.drop skip).take limit.toNat⟩

/-! ## GET /workouts/:id -/

structure WorkoutReadRes where
  status : Nat
  error : Option String := none
  body : Option WorkoutDoc := none
deriving Repr, DecidableEq

def getWorkoutHandler (claims : Claims) (paramId : String)
    (workouts : List WorkoutDoc) : WorkoutReadRes :=
  if !ObjectId.isValid paramId then
    ⟨400, some "Invalid workout ID format", none⟩
  else
    match parseObjectId paramId with
    | none => ⟨500, some "Failed to fetch workout", none⟩
    | some workoutId =>
      match parseObjectId claims.userId with
      | none => ⟨500, some "Failed to fetch workout", none⟩
      | some requestingUserId =>
        match workouts.find? (fun w => w._id == workoutId) with
        | none => ⟨404, some "Workout not found", none⟩
        | some workout =>
          match parseObjectId workout.userId with
          | none => ⟨500, some "Failed to fetch workout", none⟩
          | some workoutUserId =>
            let isOwner := workoutUserId == requestingUserId
            let isAdmin := claims.role == "admin"
            if !isOwner && !isAdmin then
              ⟨403, some "Access denied. You can only view your own workouts.", none⟩
            else
              ⟨200, none, some workout⟩

/-! ## PUT /workouts/:id -/

def updateFirstWorkoutById (workouts : List WorkoutDoc) (wid : String)
    (f : WorkoutDoc → WorkoutDoc) : List WorkoutDoc :=
  match workouts with
  | [] => []
  | w :: rest =>
    if w._id == wid then f w :: rest else w :: updateFirstWorkoutById rest wid f

def applyWorkoutUpdate (env : Env) (n : NormalizedWorkout) (w : WorkoutDoc) : WorkoutDoc :=
  let w := { w with updatedAt := some env.now.ms }
  let w := match n.userId with | none => w | some v => { w with userId := v }
  let w := match n.workoutName with | none => w | some v => { w with workoutName := v }
  let w := match n.date with | none => w | some v => { w with date := v }
  let w := match n.duration with | none => w | some v => { w with duration := v }
  let w := match n.caloriesBurned with | none => w | some v => { w with caloriesBurned := v }
  let w := match n.exerciseType with | none => w | some v => { w with exerciseType := v }
  let w := match n.notes with | none => w | some v => { w with notes := v }
  w

def updateWorkoutHandler (env : Env) (claims : Claims) (paramId : String)
    (b : WorkoutBody) (users : List UserDoc) (workouts : List WorkoutDoc) :
    HResp × List WorkoutDoc :=
  if !ObjectId.isValid paramId then
    (⟨400, some "Invalid workout ID format"⟩, workouts)
  else
    match parseObjectId paramId with
    | none => (⟨500, some "Failed to update workout"⟩, workouts)
    | some workoutId =>
      match parseObjectId claims.userId with
      | none => (⟨500, some "Failed to update workout"⟩, workouts)
      | some requestingUserId =>
        match workouts.find? (fun w => w._id == workoutId) with
        | none => (⟨404, some "Workout not found"⟩, workouts)
        | some existingWorkout =>
          match parseObjectId existingWorkout.userId with
          | none => (⟨500, some "Failed to update workout"⟩, workouts)
          | some existingWorkoutUserId =>
            let isOwner := existingWorkoutUserId == requestingUserId
            let isAdmin := claims.role == "admin"
            if !isOwner && !isAdmin then
              (⟨403, some "Access denied. You can only update your own workouts."⟩,
               workouts)
            else if (validateWorkoutForUpdate env b).length > 0 then
              (⟨400, some "Validation failed"⟩, workouts)
            else
              -- `if (userId && userId !== existingWorkout.userId)`
              let reassigning :=
                truthy b.userId && b.userId.getD "" != existingWorkout.userId
              if reassigning && !ObjectId.isValid (b.userId.getD "") then
                (⟨400, some "Invalid userId format"⟩, workouts)
              else if reassigning && !isAdmin then
                (⟨403, some "Only admins can reassign workouts to other users."⟩,
                 workouts)
              else if reassigning &&
                  (users.find? (fun u =>
                    u._id == (parseObjectId (b.userId.getD "")).getD "")).isNone then
                (⟨400, some "Target user does not exist"⟩, workouts)
              else
                (⟨200, none⟩,
                 updateFirstWorkoutById workouts workoutId
                   (applyWorkoutUpdate env (normalizeWorkoutData env b)))

/-! ## GitHub OAuth verify callback -/

structure GHProfile where
  id : String
  username : String
  displayName : Option String
  emails : List String
deriving Repr, DecidableEq

/-- `profile.emails?.[0]?.value?.toLowerCase() ||
`<username>@github.local``. -/
def derivedEmail (p : GHProfile) : String :=
  match p.emails.head? with
  | none => p.username ++ "@github.local"
  | some v =>
    let l := jsToLower v
    if l == "" then p.username ++ "@github.local" else l

/-- `new Date('1990-01-01').getTime()`. -/
def ghDefaultDob : Int := 631152000000

def buildGithubUser (p : GHProfile) (email insertedId : String) (now : Int) :
    UserDoc :=
  { _id := insertedId
    firstName :=
      (match p.displayName with
       | some d =>
         let t := (splitOnChar ' ' d).headD ""
         if t == "" then p.username else t
       | none => p.username)
    lastName :=
      (match p.displayName with
       | some d => ((splitOnChar ' ' d).get? 1).getD ""
       | none => "")
    email := email
    password := none
    githubId := some p.id
    githubUsername := some p.username
    dateOfBirth := ghDefaultDob
    gender := "NOT_SPECIFIED"
    height := some 170
    weight := some 70
    role := some "user"
    emailVerified := true
    isActive := true
    isTestUser := false
    createdAt := now
    updatedAt := none }

/-- The GitHubStrategy verify callback: resolve by provider id, else by
derived email (linking in place), else create. -/
def githubVerify (p : GHProfile) (insertedId : String) (now : Int)
    (users : List UserDoc) : UserDoc × List UserDoc :=
  let email := derivedEmail p
  match users.find? (fun u => u.githubId == some p.id) with
  | some user => (user, users)
  | none =>
    match users.find? (fun u => u.email == email) with
    | some user =>
      (user,
       updateFirstUserById users user._id
         (fun v => { v with githubId := some p.id, githubUsername := some p.username }))
    | none =>
      let newUser := buildGithubUser p email insertedId now
      (newUser, users ++ [newUser])

/-! ## Concrete fixtures (used to instantiate hypothetical theorems) -/

def testEnv : Env :=
  { now := ⟨1760000000000, 2025⟩
    oneYearAgo := 1728400000000
    oneYearFromNow := 1791600000000
    parseDate := fun s =>
      if s == "1990-01-01" then some ⟨631152000000, 1990⟩
      else if s == "2025-06-01" then some ⟨1748736000000, 2025⟩
      else none
    bcryptHash := fun p => "hashed:" ++ p
    bcryptCompare := fun p h => h == "hashed:" ++ p
    jwtSecret := some "secret" }

def idAlice : String := "aaaaaaaaaaaaaaaaaaaaaaaa"
def idBob : String := "bbbbbbbbbbbbbbbbbbbbbbbb"
def idCarol : String := "cccccccccccccccccccccccc"
def idWorkout : String := "dddddddddddddddddddddddd"
def idFresh : String := "eeeeeeeeeeeeeeeeeeeeeeee"

def uAlice : UserDoc :=
  { _id := idAlice, firstName := "Alice", lastName := "Ash",
    email := "alice@ex.com", password := some "hashed:Secret1!",
    githubId := none, githubUsername := none,
    dateOfBirth := 631152000000, gender := "F",
    height := none, weight := none, role := some "user",
    emailVerified := false, isActive := true, isTestUser := false,
    createdAt := 0, updatedAt := none }

def uBob : UserDoc :=
  { uAlice with _id := idBob, firstName := "Bob", email := "bob@ex.com",
                password := some "hashed:Pass2!", isActive := false }

def uCarol : UserDoc :=
  { uAlice with _id := idCarol, firstName := "Carol", email := "carol@ex.com",
                password := some "hashed:Pass3!", role := some "admin" }

def clAlice : Claims := ⟨idAlice, "alice@ex.com", "user"⟩
def clCarol : Claims := ⟨idCarol, "carol@ex.com", "admin"⟩

def wkRun : WorkoutDoc :=
  { _id := idWorkout, userId := idAlice, workoutName := "Morning Run",
    date := 1748736000000, duration := 30, caloriesBurned := 200,
    exerciseType := "RUNNING", notes := "", createdAt := 0,
    createdBy := some idAlice, updatedAt := none }

/-! ## Helper lemmas -/

theorem updateFirstUserById_length (users : List UserDoc) (uid : String)
    (f : UserDoc → UserDoc) :
    (updateFirstUserById users uid f).length = users.length := by
  induction users with
  | nil => simp [updateFirstUserById]
  | cons u rest ih =>
    simp only [updateFirstUserById]
    split <;> simp [ih]

theorem updateFirstUserById_mem_applied (users : List UserDoc) (uid : String)
    (f : UserDoc → UserDoc) (hex : ∃ u ∈ users, u._id = uid) :
    ∃ u0 ∈ users, u0._id = uid ∧ f u0 ∈ updateFirstUserById users uid f := by
  induction users with
  | nil => simp at hex
  | cons u rest ih =>
    by_cases h : u._id = uid
    · refine ⟨u, List.mem_cons_self u rest, h, ?_⟩
      simp [updateFirstUserById, h]
    · obtain ⟨v, hv, hvid⟩ := hex
      rcases List.mem_cons.mp hv with rfl | hvrest
      · exact absurd hvid h
      · obtain ⟨u0, hu0, hu0id, hu0mem⟩ := ih ⟨v, hvrest, hvid⟩
        refine ⟨u0, List.mem_cons_of_mem u hu0, hu0id, ?_⟩
        have hne : (u._id == uid) = false := beq_eq_false_iff_ne.mpr h
        simp [updateFirstUserById, hne, hu0mem]

theorem pushErr_eq_nil {es : List String} {o : Option String}
    (h : pushErr es o = []) : es = [] ∧ o = none := by
  cases o with
  | none => exact ⟨h, rfl⟩
  | some e => simp [pushErr] at h

theorem parseObjectId_eq_some {s t : String} (h : parseObjectId s = some t) :
    ObjectId.isValid s = true ∧ t = jsToLower s := by
  unfold parseObjectId at h
  by_cases hv : ObjectId.isValid s
  · simp [hv] at h
    exact ⟨hv, h.symm⟩
  · simp [hv] at h

end Fitness

namespace Fitness

/-! ## Claim theorems -/

/-- C9: a user-resource operation addressed by a malformed id (read
single, update, delete) answers with the catch-all 500 "Failed to ..."
error, while the corresponding workout-resource operations reject the
malformed id with a 400 before any other processing. -/
theorem malformed_id_users_500_workouts_400 (env : Env) (claims : Claims)
    (s : String) (bU : UpdateUserBody) (bW : WorkoutBody)
    (users : List UserDoc) (workouts : List WorkoutDoc)
    (hbad : ObjectId.isValid s = false) :
    getUserHandler claims s users = ⟨500, some "Failed to fetch user", none⟩
    ∧ (updateUserHandler env claims s bU users).1 = ⟨500, some "Failed to update user"⟩
    ∧ deleteUserHandler claims s users = ⟨500, some "Failed to delete user"⟩
    ∧ getWorkoutHandler claims s workouts = ⟨400, some "Invalid workout ID format", none⟩
    ∧ (updateWorkoutHandler env claims s bW users workouts).1
        = ⟨400, some "Invalid workout ID format"⟩
    ∧ deleteWorkoutHandler claims s workouts = ⟨400, some "Invalid workout ID format"⟩ := by
  refine ⟨?_, ?_, ?_, ?_, ?_, ?_⟩ <;>
    simp [getUserHandler, updateUserHandler, deleteUserHandler,
          getWorkoutHandler, updateWorkoutHandler, deleteWorkoutHandler,
          parseObjectId, hbad]

/-- C9 witness at the malformed id "nope". -/
theorem malformed_id_users_500_workouts_400_witness :
    ObjectId.isValid "nope" = false
    ∧ (getUserHandler clAlice "nope" [uAlice]
         = ⟨500, some "Failed to fetch user", none⟩
       ∧ (updateUserHandler testEnv clAlice "nope"
            ⟨none, none, none, none, none, none, none⟩ [uAlice]).1
           = ⟨500, some "Failed to update user"⟩
       ∧ deleteUserHandler clAlice "nope" [uAlice]
           = ⟨500, some "Failed to delete user"⟩
       ∧ getWorkoutHandler clAlice "nope" [wkRun]
           = ⟨400, some "Invalid workout ID format", none⟩
       ∧ (updateWorkoutHandler testEnv clAlice "nope"
            ⟨none, none, none, none, none, none, none⟩ [uAlice] [wkRun]).1
           = ⟨400, some "Invalid workout ID format"⟩
       ∧ deleteWorkoutHandler clAlice "nope" [wkRun]
           = ⟨400, some "Invalid workout ID format"⟩) :=
  ⟨by decide,
   malformed_id_users_500_workouts_400 testEnv clAlice "nope"
     ⟨none, none, none, none, none, none, none⟩
     ⟨none, none, none, none, none, none, none⟩
     [uAlice] [wkRun] (by decide)⟩

/-- C1 counterexample: the claim asserts the 403-before-existence order
for *both* resource kinds, but the workouts delete handler loads the
workout first — a non-admin requester deleting a nonexistent workout id
gets a 404, not a 403. -/
theorem delete_permission_order_counterexample :
    clAlice.role ≠ "admin"
    ∧ deleteWorkoutHandler clAlice idBob [] = ⟨404, some "Workout not found"⟩
    ∧ deleteWorkoutHandler clAlice idBob []
        ≠ ⟨403, some "Access denied. You can only delete your own workouts."⟩ := by
  refine ⟨by decide, by decide, by decide⟩

/-- C1 amended: the users delete handler checks permission before
existence (a non-owner non-admin gets 403 whatever the collection
contains), while the workouts delete handler checks existence first:
a nonexistent id yields 404 for every requester, and 403 only arises
for an existing workout the requester neither owns nor administers. -/
theorem delete_permission_order (claims : Claims) (paramId : String)
    (users : List UserDoc) (workouts : List WorkoutDoc)
    (hp : ObjectId.isValid paramId = true)
    (hr : ObjectId.isValid claims.userId = true)
    (hne : jsToLower paramId ≠ jsToLower claims.userId)
    (hrole : claims.role ≠ "admin") :
    deleteUserHandler claims paramId users
      = ⟨403, some "Access denied. You can only delete your own account."⟩
    ∧ (workouts.find? (fun w => w._id == jsToLower paramId) = none →
        deleteWorkoutHandler claims paramId workouts = ⟨404, some "Workout not found"⟩)
    ∧ (∀ w, workouts.find? (fun x => x._id == jsToLower paramId) = some w →
        ObjectId.isValid w.userId = true →
        jsToLower w.userId ≠ jsToLower claims.userId →
        deleteWorkoutHandler claims paramId workouts
          = ⟨403, some "Access denied. You can only delete your own workouts."⟩) := by
  have howner : (jsToLower paramId == jsToLower claims.userId) = false :=
    beq_eq_false_iff_ne.mpr hne
  have hadmin : (claims.role == "admin") = false := beq_eq_false_iff_ne.mpr hrole
  refine ⟨?_, ?_, ?_⟩
  · simp [deleteUserHandler, parseObjectId, hp, hr, howner, hadmin]
  · intro hfind
    simp [deleteWorkoutHandler, parseObjectId, hp, hr, hfind]
  · intro w hfind hwid hwne
    have hwowner : (jsToLower w.userId == jsToLower claims.userId) = false :=
      beq_eq_false_iff_ne.mpr hwne
    simp [deleteWorkoutHandler, parseObjectId, hp, hr, hfind, hwid, hwowner, hadmin]

/-- C1 amended witness: Alice (non-admin) deleting Bob's user id and a
present/missing workout id. -/
theorem delete_permission_order_witness :
    (ObjectId.isValid idBob = true ∧ ObjectId.isValid clAlice.userId = true
      ∧ jsToLower idBob ≠ jsToLower clAlice.userId ∧ clAlice.role ≠ "admin")
    ∧ (deleteUserHandler clAlice idBob [uAlice]
         = ⟨403, some "Access denied. You can only delete your own account."⟩
       ∧ ([] : List WorkoutDoc).find? (fun w => w._id == jsToLower idBob) = none →
         deleteWorkoutHandler clAlice idBob []
           = ⟨404, some "Workout not found"⟩) := by
  refine ⟨by decide, ?_⟩
  intro _
  exact (delete_permission_order clAlice idBob [uAlice] [] (by decide) (by decide)
    (by decide) (by decide)).2.1 (by decide)

/-- C2: a role-update request is rejected with 403 unless the
requester's role is admin, and an admin targeting their own account with
any requested role other than "admin" never succeeds and never mutates
the collection (self-demotion blocked). -/
theorem role_update_admin_gate_and_self_demotion (env : Env) (claims : Claims)
    (paramId : String) (role : Option String) (users : List UserDoc) :
    (claims.role ≠ "admin" →
       roleUpdateHandler env claims paramId role users
         = (⟨403, some "Access denied. Admin privileges required."⟩, users))
    ∧ (claims.role = "admin" → jsToLower paramId = jsToLower claims.userId →
       role ≠ some "admin" →
       (roleUpdateHandler env claims paramId role users).1.status ≠ 200
       ∧ (roleUpdateHandler env claims paramId role users).2 = users) := by
  constructor
  · intro h
    have hb : (claims.role != "admin") = true := bne_iff_ne.mpr h
    simp [roleUpdateHandler, hb]
  · intro hadm hself hrole
    have hb : (claims.role != "admin") = false := by simp [hadm]
    cases hp : parseObjectId paramId with
    | none => simp [roleUpdateHandler, hb, hp]
    | some uid =>
      obtain ⟨hvp, huid⟩ := parseObjectId_eq_some hp
      cases role with
      | none => simp [roleUpdateHandler, hb, hp]
      | some r =>
        have hr : r ≠ "admin" := fun h => hrole (by rw [h])
        by_cases hu : r = "user"
        · subst hu
          cases hf : users.find? (fun u => u._id == uid) with
          | none => simp [roleUpdateHandler, hb, hp, hf]
          | some w =>
            cases hq : parseObjectId claims.userId with
            | none => simp [roleUpdateHandler, hb, hp, hf, hq]
            | some rid =>
              obtain ⟨hvq, hrid⟩ := parseObjectId_eq_some hq
              have heq : uid = rid := by rw [huid, hrid, hself]
              have hbeq : (uid == rid) = true := beq_iff_eq.mpr heq
              simp [roleUpdateHandler, hb, hp, hf, hq, hbeq]
        · simp [roleUpdateHandler, hb, hp, hu, hr]

/-- C2 witness: Alice (non-admin) is rejected with 403; admin Carol
targeting herself with role "user" is rejected without mutation. -/
theorem role_update_admin_gate_and_self_demotion_witness :
    (clAlice.role ≠ "admin"
     ∧ roleUpdateHandler testEnv clAlice idCarol (some "user") [uAlice, uCarol]
         = (⟨403, some "Access denied. Admin privileges required."⟩, [uAlice, uCarol]))
    ∧ (clCarol.role = "admin" ∧ jsToLower idCarol = jsToLower clCarol.userId
       ∧ some "user" ≠ some "admin"
       ∧ (roleUpdateHandler testEnv clCarol idCarol (some "user") [uAlice, uCarol]).1.status ≠ 200
       ∧ (roleUpdateHandler testEnv clCarol idCarol (some "user") [uAlice, uCarol]).2
           = [uAlice, uCarol]) := by
  refine ⟨⟨by decide, ?_⟩, by decide, by decide, by decide, ?_, ?_⟩
  · exact (role_update_admin_gate_and_self_demotion testEnv clAlice idCarol
      (some "user") [uAlice, uCarol]).1 (by decide)
  · exact ((role_update_admin_gate_and_self_demotion testEnv clCarol idCarol
      (some "user") [uAlice, uCarol]).2 (by decide) (by decide) (by decide)).1
  · exact ((role_update_admin_gate_and_self_demotion testEnv clCarol idCarol
      (some "user") [uAlice, uCarol]).2 (by decide) (by decide) (by decide)).2

/-- C3: federated resolve-or-create resolves in order, first match wins:
a provider-id match is returned unchanged; otherwise an email match is
returned itself (same identifier) with the provider id and username
linked onto it in the store, with no account added; only when both
lookups miss is a fresh account inserted. -/
theorem github_resolve_or_create (p : GHProfile) (insertedId : String)
    (now : Int) (users : List UserDoc) :
    (∀ u, users.find? (fun x => x.githubId == some p.id) = some u →
       githubVerify p insertedId now users = (u, users))
    ∧ (users.find? (fun x => x.githubId == some p.id) = none →
       ∀ u, users.find? (fun x => x.email == derivedEmail p) = some u →
         (githubVerify p insertedId now users).1 = u
         ∧ (githubVerify p insertedId now users).2.length = users.length
         ∧ ∃ v ∈ (githubVerify p insertedId now users).2,
             v._id = u._id ∧ v.githubId = some p.id
             ∧ v.githubUsername = some p.username)
    ∧ (users.find? (fun x => x.githubId == some p.id) = none →
       users.find? (fun x => x.email == derivedEmail p) = none →
       githubVerify p insertedId now users
         = (buildGithubUser p (derivedEmail p) insertedId now,
            users ++ [buildGithubUser p (derivedEmail p) insertedId now])) := by
  refine ⟨?_, ?_, ?_⟩
  · intro u h
    simp [githubVerify, h]
  · intro hg u hm
    refine ⟨by simp [githubVerify, hg, hm], ?_, ?_⟩
    · simp [githubVerify, hg, hm, updateFirstUserById_length]
    · have hmem : u ∈ users := List.mem_of_find?_eq_some hm
      obtain ⟨u0, hu0mem, hu0id, happ⟩ :=
        updateFirstUserById_mem_applied users u._id
          (fun v => { v with githubId := some p.id, githubUsername := some p.username })
          ⟨u, hmem, rfl⟩
      refine ⟨_, by simpa [githubVerify, hg, hm] using happ, by simpa using hu0id, rfl, rfl⟩
  · intro hg hm
    simp [githubVerify, hg, hm]

/-- C3 witness: a password-created account is linked in place on an
email match. -/
theorem github_resolve_or_create_witness :
    ([uAlice].find? (fun x => x.githubId == some "77") = none
     ∧ [uAlice].find?
         (fun x => x.email == derivedEmail ⟨"77", "al", some "Al Ice", ["Alice@EX.com"]⟩)
         = some uAlice)
    ∧ ((githubVerify ⟨"77", "al", some "Al Ice", ["Alice@EX.com"]⟩ idFresh 0 [uAlice]).1
         = uAlice
       ∧ (githubVerify ⟨"77", "al", some "Al Ice", ["Alice@EX.com"]⟩ idFresh 0 [uAlice]).2.length
           = [uAlice].length
       ∧ ∃ v ∈ (githubVerify ⟨"77", "al", some "Al Ice", ["Alice@EX.com"]⟩ idFresh 0 [uAlice]).2,
           v._id = uAlice._id ∧ v.githubId = some "77" ∧ v.githubUsername = some "al") :=
  ⟨by decide,
   (github_resolve_or_create ⟨"77", "al", some "Al Ice", ["Alice@EX.com"]⟩ idFresh 0
     [uAlice]).2.1 (by decide) uAlice (by decide)⟩

/-- C4: once login input validation passes (and the signing secret is
configured, and stored accounts carry a password hash), a missing
account and a wrong password produce the identical generic 401, an
inactive account produces the distinct 401 "Account is deactivated",
and no response other than success and these three-way 401s exists. -/
theorem login_failure_taxonomy (env : Env) (b : LoginBody) (users : List UserDoc)
    (hval : validateUserForLogin b = [])
    (hsec : env.jwtSecret ≠ none)
    (hpw : ∀ u ∈ users, u.password ≠ none) :
    (users.find? (fun x => x.email == normalizeEmail b.email) = none →
       loginHandler env b users = ⟨401, some "Invalid email or password", none⟩)
    ∧ (∀ u, users.find? (fun x => x.email == normalizeEmail b.email) = some u →
       u.isActive = true →
       env.bcryptCompare (b.password.getD "") (u.password.getD "") = false →
       loginHandler env b users = ⟨401, some "Invalid email or password", none⟩)
    ∧ (∀ u, users.find? (fun x => x.email == normalizeEmail b.email) = some u →
       u.isActive = false →
       loginHandler env b users = ⟨401, some "Account is deactivated", none⟩)
    ∧ ((loginHandler env b users).status = 200
       ∨ loginHandler env b users = ⟨401, some "Invalid email or password", none⟩
       ∨ loginHandler env b users = ⟨401, some "Account is deactivated", none⟩) := by
  refine ⟨?_, ?_, ?_, ?_⟩
  · intro hnone
    simp [loginHandler, hval, hnone]
  · intro u hfind hact hcmp
    obtain ⟨h, hh⟩ := Option.ne_none_iff_exists'.mp (hpw u (List.mem_of_find?_eq_some hfind))
    have hcmp' : env.bcryptCompare (b.password.getD "") h = false := by
      rw [hh] at hcmp
      simpa using hcmp
    simp [loginHandler, hval, hfind, hact, hh, hcmp']
  · intro u hfind hact
    simp [loginHandler, hval, hfind, hact]
  · cases hfind : users.find? (fun x => x.email == normalizeEmail b.email) with
    | none => right; left; simp [loginHandler, hval, hfind]
    | some u =>
      obtain ⟨h, hh⟩ := Option.ne_none_iff_exists'.mp (hpw u (List.mem_of_find?_eq_some hfind))
      obtain ⟨s, hs⟩ := Option.ne_none_iff_exists'.mp hsec
      cases hact : u.isActive with
      | false => right; right; simp [loginHandler, hval, hfind, hact]
      | true =>
        cases hcmp : env.bcryptCompare (b.password.getD "") h with
        | false => right; left; simp [loginHandler, hval, hfind, hact, hh, hcmp]
        | true => left; simp [loginHandler, hval, hfind, hact, hh, hcmp, hs]

/-- C4 witness: a lookup miss yields the generic 401 under concrete
satisfiable hypotheses. -/
theorem login_failure_taxonomy_witness :
    (validateUserForLogin ⟨some "zz@ex.com", some "Secret1!"⟩ = []
     ∧ testEnv.jwtSecret ≠ none
     ∧ ∀ u ∈ [uAlice], u.password ≠ none)
    ∧ ([uAlice].find?
         (fun x => x.email == normalizeEmail (some "zz@ex.com")) = none →
       loginHandler testEnv ⟨some "zz@ex.com", some "Secret1!"⟩ [uAlice]
         = ⟨401, some "Invalid email or password", none⟩) :=
  ⟨⟨by decide, by decide, by decide⟩,
   (login_failure_taxonomy testEnv ⟨some "zz@ex.com", some "Secret1!"⟩ [uAlice]
     (by decide) (by decide) (by decide)).1⟩

theorem validateWorkoutForUpdate_userId {env : Env} {b : WorkoutBody} {s : String}
    (hval : validateWorkoutForUpdate env b = []) (hbu : b.userId = some s) :
    (s == "") = false ∧ ObjectId.isValid s = true := by
  unfold validateWorkoutForUpdate at hval
  obtain ⟨hval, _⟩ := pushErr_eq_nil hval
  obtain ⟨hval, _⟩ := pushErr_eq_nil hval
  obtain ⟨hval, _⟩ := pushErr_eq_nil hval
  obtain ⟨hval, _⟩ := pushErr_eq_nil hval
  obtain ⟨hval, _⟩ := pushErr_eq_nil hval
  obtain ⟨hval, _⟩ := pushErr_eq_nil hval
  obtain ⟨_, huid⟩ := pushErr_eq_nil hval
  rw [hbu] at huid
  simp only [optValidate, validateUserId] at huid
  by_cases h0 : s == ""
  · simp [h0] at huid
  · by_cases h1 : ObjectId.isValid s
    · exact ⟨by simpa using h0, h1⟩
    · simp [h0, h1] at huid

/-- C5: a workout update whose body carries an owner (`userId`) field
different from the workout's stored owner is rejected with status 403
for every non-admin requester — including the current owner — and, for
an admin requester, is rejected with 400 when the new owner account does
not exist. -/
theorem workout_owner_reassignment_admin_only
    (env : Env) (claims : Claims) (paramId : String) (b : WorkoutBody)
    (users : List UserDoc) (workouts : List WorkoutDoc) (w : WorkoutDoc) (s : String)
    (hfind : workouts.find? (fun x => x._id == jsToLower paramId) = some w)
    (hpid : ObjectId.isValid paramId = true)
    (hrid : ObjectId.isValid claims.userId = true)
    (hwid : ObjectId.isValid w.userId = true)
    (hval : validateWorkoutForUpdate env b = [])
    (hbu : b.userId = some s)
    (hdiff : s ≠ w.userId) :
    (claims.role ≠ "admin" →
       (updateWorkoutHandler env claims paramId b users workouts).1.status = 403)
    ∧ (claims.role = "admin" →
       users.find? (fun u => u._id == jsToLower s) = none →
       (updateWorkoutHandler env claims paramId b users workouts).1
         = ⟨400, some "Target user does not exist"⟩) := by
  obtain ⟨hsne, hsval⟩ := validateWorkoutForUpdate_userId hval hbu
  have hs : ¬s = "" := by simpa using hsne
  constructor
  · intro h
    have hadminb : (claims.role == "admin") = false := beq_eq_false_iff_ne.mpr h
    by_cases how : (jsToLower w.userId == jsToLower claims.userId) = true
    · simp [updateWorkoutHandler, parseObjectId, hpid, hrid, hfind, hwid, hval,
            hadminb, how, truthy, hbu, hsne, hsval, hdiff, hs]
    · simp [updateWorkoutHandler, parseObjectId, hpid, hrid, hfind, hwid, hval,
            hadminb, Bool.of_not_eq_true how, truthy, hbu, hsne, hsval, hdiff, hs]
  · intro hadm hnone
    have hadminb : (claims.role == "admin") = true := beq_iff_eq.mpr hadm
    simp [updateWorkoutHandler, parseObjectId, hpid, hrid, hfind, hwid, hval,
          hadminb, truthy, hbu, hsne, hsval, hdiff, hnone, hs]

/-- C5 witness: Alice, owner of the workout, may not hand it to Bob
(403); admin Carol reassigning to a nonexistent account gets 400. -/
theorem workout_owner_reassignment_admin_only_witness :
    ([wkRun].find? (fun x => x._id == jsToLower idWorkout) = some wkRun
     ∧ validateWorkoutForUpdate testEnv ⟨some idBob, none, none, none, none, none, none⟩ = []
     ∧ idBob ≠ wkRun.userId ∧ clAlice.role ≠ "admin" ∧ clCarol.role = "admin")
    ∧ (updateWorkoutHandler testEnv clAlice idWorkout
         ⟨some idBob, none, none, none, none, none, none⟩ [uAlice, uCarol] [wkRun]).1.status
        = 403
    ∧ ((updateWorkoutHandler testEnv clCarol idWorkout
         ⟨some idBob, none, none, none, none, none, none⟩ [uAlice, uCarol] [wkRun]).1
        = ⟨400, some "Target user does not exist"⟩) := by
  refine ⟨by decide, ?_, ?_⟩
  · exact (workout_owner_reassignment_admin_only testEnv clAlice idWorkout
      ⟨some idBob, none, none, none, none, none, none⟩ [uAlice, uCarol] [wkRun] wkRun idBob
      (by decide) (by decide) (by decide) (by decide) (by decide) (by decide)
      (by decide)).1 (by decide)
  · exact (workout_owner_reassignment_admin_only testEnv clCarol idWorkout
      ⟨some idBob, none, none, none, none, none, none⟩ [uAlice, uCarol] [wkRun] wkRun idBob
      (by decide) (by decide) (by decide) (by decide) (by decide) (by decide)
      (by decide)).2 (by decide) (by decide)

theorem mem_insertByDateDesc {a w : WorkoutDoc} {l : List WorkoutDoc} :
    a ∈ insertByDateDesc w l ↔ a = w ∨ a ∈ l := by
  induction l with
  | nil => simp [insertByDateDesc]
  | cons x xs ih =>
    simp only [insertByDateDesc]
    split
    · simp
    · simp [ih]
      tauto

theorem mem_sortByDateDesc {a : WorkoutDoc} {l : List WorkoutDoc} :
    a ∈ sortByDateDesc l ↔ a ∈ l := by
  induction l with
  | nil => simp [sortByDateDesc]
  | cons x xs ih => simp [sortByDateDesc, mem_insertByDateDesc, ih]

theorem listWorkoutsDates_userId {env : Env} {params : ListParams}
    {query : WQuery} {page limit : Int} {p l : Int} {q : WQuery}
    (h : listWorkoutsDates env params query page limit = .ok (p, l, q)) :
    q.userId = query.userId := by
  unfold listWorkoutsDates at h
  split at h
  · split at h
    · simp at h
    · split at h <;> split at h <;> split at h <;>
        · obtain ⟨-, -, rfl⟩ := by simpa using h
          rfl
  · split at h <;>
      · obtain ⟨-, -, rfl⟩ := by simpa using h
        rfl

/-- C6: for a non-admin requester the listing handler constrains the
store query itself to the requester's account id, and hence every
workout on the returned page is owned by the requester. -/
theorem workout_listing_owner_scoped (env : Env) (claims : Claims)
    (params : ListParams) (workouts : List WorkoutDoc)
    (hrole : claims.role ≠ "admin")
    (hrid : ObjectId.isValid claims.userId = true) :
    (∀ page limit q,
       listWorkoutsCore env claims (jsToLower claims.userId) params
         = .ok (page, limit, q) →
       q.userId = some (jsToLower claims.userId))
    ∧ ∀ w ∈ (listWorkoutsHandler env claims params workouts).workouts,
        w.userId = jsToLower claims.userId := by
  have hadminb : (claims.role == "admin") = false := beq_eq_false_iff_ne.mpr hrole
  have hcore : ∀ page limit q,
      listWorkoutsCore env claims (jsToLower claims.userId) params
        = .ok (page, limit, q) →
      q.userId = some (jsToLower claims.userId) := by
    intro page limit q h
    unfold listWorkoutsCore at h
    rw [hadminb] at h
    simp only [Bool.not_false, if_true, Bool.false_and, if_false] at h
    split at h
    · simp at h
    · exact listWorkoutsDates_userId h
  refine ⟨hcore, ?_⟩
  intro w hw
  unfold listWorkoutsHandler at hw
  rw [show parseObjectId claims.userId = some (jsToLower claims.userId) by
        simp [parseObjectId, hrid]] at hw
  simp only at hw
  cases hc : listWorkoutsCore env claims (jsToLower claims.userId) params with
  | error e => rw [hc] at hw; simp at hw
  | ok triple =>
    obtain ⟨page, limit, q⟩ := triple
    rw [hc] at hw
    simp only at hw
    have hq := hcore page limit q hc
    have hmem : w ∈ workouts.filter (WorkoutDoc.matchesQuery q) :=
      mem_sortByDateDesc.mp
        (List.mem_of_mem_drop (List.mem_of_mem_take hw))
    have hmatch : WorkoutDoc.matchesQuery q w = true := (List.mem_filter.mp hmem).2
    unfold WorkoutDoc.matchesQuery at hmatch
    rw [hq] at hmatch
    have := (Bool.and_eq_true _ _ |>.mp
      ((Bool.and_eq_true _ _ |>.mp
        ((Bool.and_eq_true _ _ |>.mp hmatch).1)).1)).1
    simpa using this

/-- C6 witness: Alice's listing over a two-owner store returns only her
workout. -/
theorem workout_listing_owner_scoped_witness :
    (clAlice.role ≠ "admin" ∧ ObjectId.isValid clAlice.userId = true)
    ∧ ∀ w ∈ (listWorkoutsHandler testEnv clAlice {}
        [wkRun, { wkRun with _id := idFresh, userId := idBob }]).workouts,
        w.userId = jsToLower clAlice.userId :=
  ⟨⟨by decide, by decide⟩,
   (workout_listing_owner_scoped testEnv clAlice {}
     [wkRun, { wkRun with _id := idFresh, userId := idBob }]
     (by decide) (by decide)).2⟩

theorem getUserHandler_200_find (claims : Claims) (paramId : String)
    (users : List UserDoc)
    (h200 : (getUserHandler claims paramId users).status = 200) :
    ∃ u, users.find? (fun x => x._id == jsToLower paramId) = some u := by
  cases hp : parseObjectId paramId with
  | none => exfalso; simp [getUserHandler, hp] at h200
  | some uid =>
    obtain ⟨hv, huid⟩ := parseObjectId_eq_some hp
    subst huid
    cases hq : parseObjectId claims.userId with
    | none => exfalso; simp [getUserHandler, hp, hq] at h200
    | some rid =>
      cases hf : users.find? (fun x => x._id == jsToLower paramId) with
      | none => exfalso; simp [getUserHandler, hp, hq, hf] at h200
      | some u => exact ⟨u, rfl⟩

theorem getUserHandler_body_of_200 (claims : Claims) (paramId : String)
    (users : List UserDoc) (u : UserDoc)
    (hfind : users.find? (fun x => x._id == jsToLower paramId) = some u)
    (h200 : (getUserHandler claims paramId users).status = 200) :
    (getUserHandler claims paramId users).body
      = some (applyProjection ["password"] u.toFields) := by
  cases hp : parseObjectId paramId with
  | none => exfalso; simp [getUserHandler, hp] at h200
  | some uid =>
    obtain ⟨hv, huid⟩ := parseObjectId_eq_some hp
    subst huid
    cases hq : parseObjectId claims.userId with
    | none => exfalso; simp [getUserHandler, hp, hq] at h200
    | some rid =>
      by_cases hown : (jsToLower paramId == rid) = true
      · simp [getUserHandler, hp, hq, hfind, hown]
      · by_cases hadm : (claims.role == "admin") = true
        · simp [getUserHandler, hp, hq, hfind, hown, hadm]
        · exfalso
          simp [getUserHandler, hp, hq, hfind,
                Bool.not_eq_true _ ▸ hown, Bool.not_eq_true _ ▸ hadm] at h200

/-- C7: a successful single-account read — by id or via the own-profile
route — returns the stored document with exactly the password key
removed: the key set of the payload is the document's key set minus
"password", and the payload does not depend on which authorized
requester (owner or admin) asked. -/
theorem single_account_read_redacts_only_password (claims cl2 : Claims)
    (paramId : String) (users : List UserDoc) :
    (∀ u, users.find? (fun x => x._id == jsToLower paramId) = some u →
       (getUserHandler claims paramId users).status = 200 →
       (getUserHandler claims paramId users).body
         = some (applyProjection ["password"] u.toFields))
    ∧ (∀ u, users.find? (fun x => x._id == jsToLower claims.userId) = some u →
       (profileMeHandler claims users).status = 200 →
       (profileMeHandler claims users).body
         = some (applyProjection ["password"] u.toFields))
    ∧ (∀ fields : List (String × String),
       (applyProjection ["password"] fields).map Prod.fst
         = (fields.map Prod.fst).filter (fun k => k != "password"))
    ∧ ((getUserHandler claims paramId users).status = 200 →
       (getUserHandler cl2 paramId users).status = 200 →
       (getUserHandler claims paramId users).body
         = (getUserHandler cl2 paramId users).body) := by
  refine ⟨?_, ?_, ?_, ?_⟩
  · intro u hfind h200
    exact getUserHandler_body_of_200 claims paramId users u hfind h200
  · intro u hfind h200
    cases hq : parseObjectId claims.userId with
    | none => exfalso; simp [profileMeHandler, hq] at h200
    | some rid =>
      obtain ⟨hv, hrid⟩ := parseObjectId_eq_some hq
      subst hrid
      simp [profileMeHandler, hq, hfind]
  · intro fields
    induction fields with
    | nil => rfl
    | cons kv rest ih =>
      by_cases h : kv.1 = "password"
      · simp [applyProjection, h] at ih ⊢
        exact ih
      · simp [applyProjection, h] at ih ⊢
        exact ih
  · intro h200a h200b
    obtain ⟨u, hfind⟩ := getUserHandler_200_find claims paramId users h200a
    rw [getUserHandler_body_of_200 claims paramId users u hfind h200a,
        getUserHandler_body_of_200 cl2 paramId users u hfind h200b]

/-- C7 witness: owner Alice and admin Carol read the same
password-free payload. -/
theorem single_account_read_redacts_only_password_witness :
    ([uAlice].find? (fun x => x._id == jsToLower idAlice) = some uAlice
     ∧ (getUserHandler clAlice idAlice [uAlice]).status = 200
     ∧ (getUserHandler clCarol idAlice [uAlice]).status = 200)
    ∧ (getUserHandler clAlice idAlice [uAlice]).body
        = some (applyProjection ["password"] uAlice.toFields)
    ∧ (getUserHandler clAlice idAlice [uAlice]).body
        = (getUserHandler clCarol idAlice [uAlice]).body :=
  ⟨⟨by decide, by decide, by decide⟩,
   (single_account_read_redacts_only_password clAlice clCarol idAlice [uAlice]).1
     uAlice (by decide) (by decide),
   (single_account_read_redacts_only_password clAlice clCarol idAlice [uAlice]).2.2.2
     (by decide) (by decide)⟩

/-- C8 counterexample: for display name "Ann Mary Lee" the created last
name is the second token "Mary", not the remainder "Mary Lee" claimed by
the spec. -/
theorem github_display_name_split_counterexample :
    (githubVerify ⟨"9", "anna", some "Ann Mary Lee", ["ann@ex.com"]⟩
        idFresh 0 []).1.lastName = "Mary"
    ∧ (githubVerify ⟨"9", "anna", some "Ann Mary Lee", ["ann@ex.com"]⟩
        idFresh 0 []).1.lastName ≠ "Mary Lee" :=
  ⟨by decide, by decide⟩

/-- C8 amended: on fresh account creation the first name is the first
space-separated token of the display name (the provider username when
the display name is absent or its first token empty), and the last name
is the *second* space-separated token (the empty string when there is no
second token or no display name). -/
theorem github_display_name_split (p : GHProfile) (insertedId : String)
    (now : Int) (users : List UserDoc)
    (hgid : users.find? (fun x => x.githubId == some p.id) = none)
    (hmail : users.find? (fun x => x.email == derivedEmail p) = none) :
    (∀ d, p.displayName = some d →
       (githubVerify p insertedId now users).1.firstName
         = (if (splitOnChar ' ' d).headD "" == "" then p.username
            else (splitOnChar ' ' d).headD "")
       ∧ (githubVerify p insertedId now users).1.lastName
         = ((splitOnChar ' ' d).get? 1).getD "")
    ∧ (p.displayName = none →
       (githubVerify p insertedId now users).1.firstName = p.username
       ∧ (githubVerify p insertedId now users).1.lastName = "") := by
  constructor
  · intro d hd
    simp [githubVerify, hgid, hmail, buildGithubUser, hd]
  · intro hd
    simp [githubVerify, hgid, hmail, buildGithubUser, hd]

/-- C8 amended witness: "Ann Mary Lee" yields first name "Ann" and last
name "Mary". -/
theorem github_display_name_split_witness :
    (([] : List UserDoc).find? (fun x => x.githubId == some "9") = none
     ∧ ([] : List UserDoc).find?
         (fun x => x.email == derivedEmail ⟨"9", "anna", some "Ann Mary Lee", ["ann@ex.com"]⟩)
         = none)
    ∧ ((githubVerify ⟨"9", "anna", some "Ann Mary Lee", ["ann@ex.com"]⟩
          idFresh 0 []).1.firstName
        = (if (splitOnChar ' ' "Ann Mary Lee").headD "" == "" then "anna"
           else (splitOnChar ' ' "Ann Mary Lee").headD "")
       ∧ (githubVerify ⟨"9", "anna", some "Ann Mary Lee", ["ann@ex.com"]⟩
            idFresh 0 []).1.lastName
          = ((splitOnChar ' ' "Ann Mary Lee").get? 1).getD "") :=
  ⟨⟨by decide, by decide⟩,
   (github_display_name_split ⟨"9", "anna", some "Ann Mary Lee", ["ann@ex.com"]⟩
     idFresh 0 [] (by decide) (by decide)).1 "Ann Mary Lee" (by decide)⟩

/-- C10: registration never reads the body's role: two bodies differing
only in a supplied `role` field create identical accounts, and a
created account always has role "user", emailVerified false, and
active true. -/
theorem registration_ignores_client_role (env : Env) (insertedId : String)
    (b : CreateUserBody) (r : Option String) (users : List UserDoc) :
    createUserHandler env insertedId { b with role := r } users
      = createUserHandler env insertedId b users
    ∧ ((createUserHandler env insertedId b users).1.status = 201 →
        (createUserHandler env insertedId b users).2
          = users ++ [buildNewUser env insertedId b])
    ∧ (buildNewUser env insertedId b).role = some "user"
    ∧ (buildNewUser env insertedId b).emailVerified = false
    ∧ (buildNewUser env insertedId b).isActive = true := by
  refine ⟨rfl, ?_, rfl, rfl, rfl⟩
  intro h201
  by_cases hv : (validateUserForCreation env b).length > 0
  · exfalso
    simp [createUserHandler, hv] at h201
  · cases hf : users.find? (fun u => u.email == normalizeEmail b.email) with
    | some u =>
      exfalso
      simp [createUserHandler, hv, hf] at h201
    | none => simp [createUserHandler, hv, hf]

/-- C10 witness: a registration body with a smuggled role "admin"
creates the same account as without it, with role "user". -/
theorem registration_ignores_client_role_witness :
    ((createUserHandler testEnv idFresh
        ⟨some "Ann", some "Lee", some "ann@ex.com", some "Secret123!",
         some "Secret123!", some "1990-01-01", some "F", none, none, none, none⟩
        []).1.status = 201)
    ∧ (createUserHandler testEnv idFresh
         ⟨some "Ann", some "Lee", some "ann@ex.com", some "Secret123!",
          some "Secret123!", some "1990-01-01", some "F", none, none, none,
          some "admin"⟩ []
        = createUserHandler testEnv idFresh
            ⟨some "Ann", some "Lee", some "ann@ex.com", some "Secret123!",
             some "Secret123!", some "1990-01-01", some "F", none, none, none, none⟩ []
       ∧ (createUserHandler testEnv idFresh
            ⟨some "Ann", some "Lee", some "ann@ex.com", some "Secret123!",
             some "Secret123!", some "1990-01-01", some "F", none, none, none, none⟩
            []).2
          = [] ++ [buildNewUser testEnv idFresh
              ⟨some "Ann", some "Lee", some "ann@ex.com", some "Secret123!",
               some "Secret123!", some "1990-01-01", some "F", none, none, none, none⟩]
       ∧ (buildNewUser testEnv idFresh
            ⟨some "Ann", some "Lee", some "ann@ex.com", some "Secret123!",
             some "Secret123!", some "1990-01-01", some "F", none, none, none, none⟩).role
          = some "user") := by
  refine ⟨by decide, ?_, ?_, ?_⟩
  · exact (registration_ignores_client_role testEnv idFresh
      ⟨some "Ann", some "Lee", some "ann@ex.com", some "Secret123!",
       some "Secret123!", some "1990-01-01", some "F", none, none, none, none⟩
      (some "admin") []).1
  · exact (registration_ignores_client_role testEnv idFresh
      ⟨some "Ann", some "Lee", some "ann@ex.com", some "Secret123!",
       some "Secret123!", some "1990-01-01", some "F", none, none, none, none⟩
      (some "admin") []).2.1 (by decide)
  · exact (registration_ignores_client_role testEnv idFresh
      ⟨some "Ann", some "Lee", some "ann@ex.com", some "Secret123!",
       some "Secret123!", some "1990-01-01", some "F", none, none, none, none⟩
      (some "admin") []).2.2.1

end Fitness













